import Mathlib

/-!
Verification development for the DominoRobot smooth motion-planning core
(`SmoothTrajectoryGenerator`).  Floating-point scalars of the source are
embedded as rationals (`ℚ`).  Types and the operations declared in the
header `SmoothTrajectoryGenerator.h` are translated directly; the solver
routines whose implementation file is not part of the sources are modelled
from the specification (each such definition carries a doc comment saying
so).
-/

namespace DominoRobot

/-- Tolerance ε used throughout the planner (spec: `1e-6` in trajectory units). -/
def eps : ℚ := 1 / 1000000

/-- `struct Point` from the header: planar position `(x, y)` and heading `a`.
The C++ constructor defaults every component to `0`. -/
structure Point where
  x : ℚ := 0
  y : ℚ := 0
  a : ℚ := 0
  deriving DecidableEq

/-- `Point::operator==` from the header: componentwise exact equality. -/
def Point.eqOp (p other : Point) : Bool :=
  p.x == other.x && p.y == other.y && p.a == other.a

/-- `struct Velocity` from the header: `(vx, vy, va)`.
The C++ constructor defaults every component to `0`. -/
structure Velocity where
  vx : ℚ := 0
  vy : ℚ := 0
  va : ℚ := 0
  deriving DecidableEq

/-- `Velocity::operator==` from the header: componentwise exact equality. -/
def Velocity.eqOp (v other : Velocity) : Bool :=
  v.vx == other.vx && v.vy == other.vy && v.va == other.va

/-- `Velocity::nearZero(eps)` from the header: true when the magnitudes of all
three components are strictly below the tolerance. -/
def Velocity.nearZero (v : Velocity) (e : ℚ := eps) : Bool :=
  if |v.vx| < e ∧ |v.vy| < e ∧ |v.va| < e then true else false

/-- `struct PVTPoint` from the header: position, velocity, time. -/
structure PVTPoint where
  position : Point
  velocity : Velocity
  time : ℚ

/-- `struct DynamicLimits` from the header: `(max_vel, max_acc, max_jerk)`. -/
structure DynamicLimits where
  max_vel : ℚ
  max_acc : ℚ
  max_jerk : ℚ
  deriving DecidableEq

/-- `DynamicLimits::operator*(float c)` from the header: scales all three
limits by the scalar `c`. -/
def DynamicLimits.scale (l : DynamicLimits) (c : ℚ) : DynamicLimits :=
  { max_vel := c * l.max_vel
    max_acc := c * l.max_acc
    max_jerk := c * l.max_jerk }

/-- `struct SwitchPoint` from the header: cumulative time, displacement,
velocity and acceleration at a segment boundary. -/
structure SwitchPoint where
  t : ℚ
  p : ℚ
  v : ℚ
  a : ℚ
  deriving DecidableEq

/-- `struct SCurveParameters` from the header: limit triple plus the eight
switch points (the C array `switch_points_[8]` is embedded as a function on
`ℕ`; only indices `0`–`7` are meaningful). -/
structure SCurveParameters where
  v_lim : ℚ
  a_lim : ℚ
  j_lim : ℚ
  switch_points : ℕ → SwitchPoint

/-- `struct SolverParameters` from the header.  The decay exponent, a float
in the source (typ. `2.0`), is embedded as a natural exponent. -/
structure SolverParameters where
  num_loops : ℕ
  alpha_decay : ℚ
  beta_decay : ℚ
  exponent_decay : ℕ

/-- `struct Trajectory` from the header: direction data, initial point and one
`SCurveParameters` per axis (`Eigen::Vector2f` becomes a pair of rationals). -/
structure Trajectory where
  trans_direction : ℚ × ℚ
  rot_direction : ℤ
  initialPoint : Point
  trans_params : SCurveParameters
  rot_params : SCurveParameters
  complete : Bool

/-- Total duration of a 1-D S-curve: the time of the last switch point. -/
def totalTime (p : SCurveParameters) : ℚ :=
  (p.switch_points 7).t

/-- Modelled from the spec: the solver implementation file is missing from the
sources; duration of segment `n` of the seven-segment profile, in order
`[dt_j, dt_a, dt_j, dt_v, dt_j, dt_a, dt_j]`. -/
def segDur (dt_j dt_a dt_v : ℚ) (n : ℕ) : ℚ :=
  if n = 0 ∨ n = 2 ∨ n = 4 ∨ n = 6 then dt_j
  else if n = 1 ∨ n = 5 then dt_a
  else if n = 3 then dt_v
  else 0

/-- Modelled from the spec: signed jerk of segment `n`, following the sign
sequence `[+J, 0, −J, 0, −J, 0, +J]`. -/
def segJerk (j : ℚ) (n : ℕ) : ℚ :=
  if n = 0 ∨ n = 6 then j
  else if n = 2 ∨ n = 4 then -j
  else 0

/-- Modelled from the spec: analytic integration of one constant-jerk segment
of duration `dt` starting from switch point `sp`. -/
def integrateStep (sp : SwitchPoint) (j dt : ℚ) : SwitchPoint :=
  { t := sp.t + dt
    p := sp.p + sp.v * dt + sp.a * dt ^ 2 / 2 + j * dt ^ 3 / 6
    v := sp.v + sp.a * dt + j * dt ^ 2 / 2
    a := sp.a + j * dt }

/-- Modelled from the spec: the sequence of switch points obtained by
integrating the seven segments from the origin `(0,0,0,0)`. -/
def switchPointSeq (j dt_j dt_a dt_v : ℚ) : ℕ → SwitchPoint
  | 0 => ⟨0, 0, 0, 0⟩
  | n + 1 =>
      integrateStep (switchPointSeq j dt_j dt_a dt_v n)
        (segJerk j n) (segDur dt_j dt_a dt_v n)

/-- Modelled from the spec: `populateSwitchTimeParameters`, whose implementation
is missing from the sources; fills the eight switch points from the accepted
segment durations and limits by piecewise constant-jerk integration. -/
def populateSwitchTimeParameters (v a j dt_j dt_a dt_v : ℚ) : SCurveParameters :=
  { v_lim := v
    a_lim := a
    j_lim := j
    switch_points := switchPointSeq j dt_j dt_a dt_v }

/-- Modelled from the spec: the `generateSCurve` relaxation loop, whose
implementation is missing from the sources; one trial of the limit-relaxation search at
iteration `k`, using the nominal feasibility formulas
`dt_j = A/J`, `dt_a = V/A − A/J`, `dt_v = D/V − V/A − A/J`; the trial is
accepted when all three durations are non-negative and the reconstructed
displacement matches `D` within ε. -/
def scurveTrial (dist : ℚ) (limits : DynamicLimits) (solver : SolverParameters)
    (k : ℕ) : Option SCurveParameters :=
  let decay := (k : ℚ) ^ solver.exponent_decay
  let vk := limits.max_vel * (1 - solver.alpha_decay * decay)
  let ak := limits.max_acc * (1 - solver.beta_decay * decay)
  let dt_j := ak / limits.max_jerk
  let dt_a := vk / ak - ak / limits.max_jerk
  let dt_v := dist / vk - vk / ak - ak / limits.max_jerk
  let params := populateSwitchTimeParameters vk ak limits.max_jerk dt_j dt_a dt_v
  if 0 ≤ dt_j ∧ 0 ≤ dt_a ∧ 0 ≤ dt_v ∧ |(params.switch_points 7).p - dist| ≤ eps
  then some params else none

/-- Modelled from the spec: the bounded relaxation search, trying iteration
indices `k, k+1, …` with `fuel` trials remaining. -/
def scurveSearchFrom (dist : ℚ) (limits : DynamicLimits)
    (solver : SolverParameters) (k : ℕ) : ℕ → Option SCurveParameters
  | 0 => none
  | fuel + 1 =>
      match scurveTrial dist limits solver k with
      | some params => some params
      | none => scurveSearchFrom dist limits solver (k + 1) fuel

/-- Modelled from the spec: `generateSCurve`, whose implementation is missing
from the sources; iterate the relaxation search up to `num_loops` times; return the
first accepted parameter set, or failure. -/
def generateSCurve (dist : ℚ) (limits : DynamicLimits)
    (solver : SolverParameters) : Option SCurveParameters :=
  scurveSearchFrom dist limits solver 0 solver.num_loops

/-- Modelled from the spec: `synchronizeParameters`, whose implementation is
missing from the sources; if the two total durations already agree within ε, done;
otherwise the shorter axis is re-solved with its limits scaled by
`s = T_short / T_long` and the result is checked again, failing on a
remaining mismatch.  The distances and limits of the two axes are taken as
arguments since the re-solve needs them. -/
def synchronizeParameters (d1 d2 : ℚ) (l1 l2 : DynamicLimits)
    (solver : SolverParameters) (p1 p2 : SCurveParameters) :
    Option (SCurveParameters × SCurveParameters) :=
  let t1 := totalTime p1
  let t2 := totalTime p2
  if |t1 - t2| ≤ eps then some (p1, p2)
  else if t1 < t2 then
    match generateSCurve d1 (l1.scale (t1 / t2)) solver with
    | none => none
    | some q1 => if |totalTime q1 - t2| ≤ eps then some (q1, p2) else none
  else
    match generateSCurve d2 (l2.scale (t2 / t1)) solver with
    | none => none
    | some q2 => if |t1 - totalTime q2| ≤ eps then some (p1, q2) else none

/-- Modelled from the spec: `solveInverse`, whose implementation is missing
from the sources; constant-velocity mode.  The target velocity is silently
clamped to the velocity limit `v = min(v_target, v_max)`.  The ramp peaks at
the clamped velocity: with `dt_a = max 0 (v/A − A/J)`, the jerk phase lasts
`A/J` when the full-acceleration ramp fits (`v·J ≥ A²`), giving peak velocity
exactly `v`; in the short-ramp regime the exact minimum-jerk phase `√(v/J)`
is irrational, so the jerk phase is capped at `v/A`, giving peak
`J·v²/A² ≤ v` — the profile never exceeds its stored `v_lim`.  The plateau is
sized so the profile lasts at least the requested move time, silently
extending an infeasibly short move time. -/
def solveInverse (v_target moveTime : ℚ) (limits : DynamicLimits) :
    SCurveParameters :=
  let v := min v_target limits.max_vel
  let dt_j := min (limits.max_acc / limits.max_jerk) (v / limits.max_acc)
  let dt_a := max 0 (v / limits.max_acc - limits.max_acc / limits.max_jerk)
  let dt_v := max 0 (moveTime - 4 * dt_j - 2 * dt_a)
  populateSwitchTimeParameters v limits.max_acc limits.max_jerk dt_j dt_a dt_v

/-- Modelled from the spec: the segment evaluator region scan, whose
implementation is missing from the sources; the first region
`r ∈ 0..6` with `time < t[r+1]`, by a linear scan of seven comparisons. -/
def findRegion (time : ℚ) (p : SCurveParameters) : ℕ :=
  if time < (p.switch_points 1).t then 0
  else if time < (p.switch_points 2).t then 1
  else if time < (p.switch_points 3).t then 2
  else if time < (p.switch_points 4).t then 3
  else if time < (p.switch_points 5).t then 4
  else if time < (p.switch_points 6).t then 5
  else 6

/-- Modelled from the spec: `computeKinematicsBasedOnRegion`, whose
implementation is missing from the sources; closed-form integration from switch point
`region` over the elapsed time `dt` with that region's signed jerk. -/
def computeKinematicsBasedOnRegion (p : SCurveParameters) (region : ℕ)
    (dt : ℚ) : ℚ × ℚ × ℚ :=
  let sp := p.switch_points region
  let j := segJerk p.j_lim region
  (sp.p + sp.v * dt + sp.a * dt ^ 2 / 2 + j * dt ^ 3 / 6,
   sp.v + sp.a * dt + j * dt ^ 2 / 2,
   sp.a + j * dt)

/-- Modelled from the spec: `lookup_1D`, whose implementation is missing from
the sources; clamp `time ≤ 0` to the state at switch point 0, clamp
`time ≥ t[7]` to the terminal displacement with zero velocity and
acceleration, and otherwise evaluate the active region in closed form. -/
def lookup_1D (time : ℚ) (p : SCurveParameters) : ℚ × ℚ × ℚ :=
  if time ≤ 0 then
    ((p.switch_points 0).p, (p.switch_points 0).v, (p.switch_points 0).a)
  else if (p.switch_points 7).t ≤ time then
    ((p.switch_points 7).p, 0, 0)
  else
    let r := findRegion time p
    computeKinematicsBasedOnRegion p r (time - (p.switch_points r).t)

/-- Modelled from the spec: the sign of the rotation delta, stored as the
integer `rot_direction` (`±1`, or `0` for no rotation). -/
def rotSign (x : ℚ) : ℤ :=
  if 0 < x then 1 else if x < 0 then -1 else 0

/-- `class SmoothTrajectoryGenerator` from the header: owns the current
trajectory and the solver parameters. -/
structure SmoothTrajectoryGenerator where
  currentTrajectory : Trajectory
  solver_params : SolverParameters

/-- Modelled from the spec: `generatePointToPointTrajectory`, whose
implementation is missing from the sources.  The problem builder's outputs — the Euclidean
translation distance `dist ≥ 0`, the wrapped rotation delta `delta`, the unit
translation direction `dir`, and the per-mode limit profiles — are taken as
arguments (the builder needs square roots and π, which the rational embedding
leaves to it).  Both axes are solved, then synchronized; only on success is
the stored trajectory replaced and `true` returned. -/
def SmoothTrajectoryGenerator.generatePointToPointTrajectory
    (stg : SmoothTrajectoryGenerator) (initialPoint : Point)
    (dist delta : ℚ) (dir : ℚ × ℚ) (lt lr : DynamicLimits) :
    Bool × SmoothTrajectoryGenerator :=
  match generateSCurve dist lt stg.solver_params with
  | none => (false, stg)
  | some p1 =>
    match generateSCurve |delta| lr stg.solver_params with
    | none => (false, stg)
    | some p2 =>
      match synchronizeParameters dist |delta| lt lr stg.solver_params p1 p2 with
      | none => (false, stg)
      | some (q1, q2) =>
        (true,
          { stg with
            currentTrajectory :=
              { trans_direction := dir
                rot_direction := rotSign delta
                initialPoint := initialPoint
                trans_params := q1
                rot_params := q2
                complete := true } })

/-- Modelled from the spec: `generateConstVelTrajectory`, whose implementation
is missing from the sources.  The velocity decomposition — translational
magnitude `vmag`, unit direction `dir` and angular rate `va` — is taken as
input; each axis runs the inverse solver against the same move time.  The
spec documents this path as best-effort: limits are clamped silently and the
facade reports overall success. -/
def SmoothTrajectoryGenerator.generateConstVelTrajectory
    (stg : SmoothTrajectoryGenerator) (initialPoint : Point)
    (vmag va moveTime : ℚ) (dir : ℚ × ℚ) (lt lr : DynamicLimits) :
    Bool × SmoothTrajectoryGenerator :=
  (true,
    { stg with
      currentTrajectory :=
        { trans_direction := dir
          rot_direction := rotSign va
          initialPoint := initialPoint
          trans_params := solveInverse vmag moveTime lt
          rot_params := solveInverse |va| moveTime lr
          complete := true } })

/-- Modelled from the spec: `SmoothTrajectoryGenerator::lookup`, whose
implementation is missing from the sources; evaluate both axes with
`lookup_1D` and compose the PVT point through the stored direction data. -/
def SmoothTrajectoryGenerator.lookup (stg : SmoothTrajectoryGenerator)
    (time : ℚ) : PVTPoint :=
  let traj := stg.currentTrajectory
  let trans := lookup_1D time traj.trans_params
  let rot := lookup_1D time traj.rot_params
  { position :=
      { x := traj.initialPoint.x + traj.trans_direction.1 * trans.1
        y := traj.initialPoint.y + traj.trans_direction.2 * trans.1
        a := traj.initialPoint.a + (traj.rot_direction : ℚ) * rot.1 }
    velocity :=
      { vx := traj.trans_direction.1 * trans.2.1
        vy := traj.trans_direction.2 * trans.2.1
        va := (traj.rot_direction : ℚ) * rot.2.1 }
    time := time }

/-- A concrete dynamic-limit triple used to exercise the planner. -/
def demoLimits : DynamicLimits := ⟨1, 1, 1⟩

/-- A dynamic-limit triple with a tiny jerk bound, infeasible for the solver
(spec scenario 5). -/
def demoBadLimits : DynamicLimits := ⟨10, 10, 1 / 100⟩

/-- A steep dynamic-limit triple (`a_max² > v_max·j_max`), exercising the
short-ramp regime of the inverse solver. -/
def demoSteepLimits : DynamicLimits := ⟨1, 10, 1⟩

/-- The typical solver configuration from the spec (`num_loops = 10`,
decays `0.1`, exponent `2`). -/
def demoSolver : SolverParameters := ⟨10, 1 / 10, 1 / 10, 2⟩

/-- A single-iteration solver configuration, used to exercise failure. -/
def demoFastSolver : SolverParameters := ⟨1, 1 / 10, 1 / 10, 2⟩

/-- An all-zero parameter set, used as the initial stored trajectory. -/
def emptyParams : SCurveParameters := populateSwitchTimeParameters 0 0 0 0 0 0

/-- An empty stored trajectory for the initial facade state. -/
def emptyTrajectory : Trajectory :=
  ⟨(1, 0), 0, {}, emptyParams, emptyParams, false⟩

/-- A concrete facade state used by the witnesses. -/
def demoStg : SmoothTrajectoryGenerator := ⟨emptyTrajectory, demoSolver⟩

/-- A facade state with the single-iteration solver configuration. -/
def badStg : SmoothTrajectoryGenerator := ⟨emptyTrajectory, demoFastSolver⟩

/-- The parameter set the solver produces for distance 3 under unit limits:
durations `dt_j = 1`, `dt_a = 0`, `dt_v = 1` at the unclamped limits. -/
def demoParams : SCurveParameters := populateSwitchTimeParameters 1 1 1 1 0 1

section Lemmas

lemma segDur_nonneg {dt_j dt_a dt_v : ℚ} (h1 : 0 ≤ dt_j) (h2 : 0 ≤ dt_a)
    (h3 : 0 ≤ dt_v) (n : ℕ) : 0 ≤ segDur dt_j dt_a dt_v n := by
  unfold segDur
  split_ifs <;> first | exact h1 | exact h2 | exact h3 | exact le_refl 0

lemma segDur_zero (n : ℕ) : segDur 0 0 0 n = 0 := by
  unfold segDur
  split_ifs <;> rfl

lemma switchPointSeq_succ_t (j dt_j dt_a dt_v : ℚ) (n : ℕ) :
    (switchPointSeq j dt_j dt_a dt_v (n + 1)).t =
      (switchPointSeq j dt_j dt_a dt_v n).t + segDur dt_j dt_a dt_v n := rfl

lemma switchPointSeq_t_nonneg {dt_j dt_a dt_v : ℚ} (h1 : 0 ≤ dt_j)
    (h2 : 0 ≤ dt_a) (h3 : 0 ≤ dt_v) (j : ℚ) :
    ∀ n, 0 ≤ (switchPointSeq j dt_j dt_a dt_v n).t := by
  intro n
  induction n with
  | zero => exact le_refl 0
  | succ m ih =>
      rw [switchPointSeq_succ_t]
      have := segDur_nonneg h1 h2 h3 m
      linarith

lemma switchPointSeq_zero_dt (j : ℚ) :
    ∀ n, switchPointSeq j 0 0 0 n = ⟨0, 0, 0, 0⟩ := by
  intro n
  induction n with
  | zero => rfl
  | succ m ih =>
      show integrateStep _ _ _ = _
      rw [ih, segDur_zero]
      simp [integrateStep]

lemma populate_t7 (v a j x y z : ℚ) :
    totalTime (populateSwitchTimeParameters v a j x y z) = 4 * x + 2 * y + z := by
  show (switchPointSeq j x y z (6 + 1)).t = _
  simp [switchPointSeq, integrateStep, segDur, segJerk]
  ring

lemma scurveTrial_eq_some {dist : ℚ} {limits : DynamicLimits}
    {solver : SolverParameters} {k : ℕ} {p : SCurveParameters}
    (h : scurveTrial dist limits solver k = some p) :
    ∃ v a dt_j dt_a dt_v,
      p = populateSwitchTimeParameters v a limits.max_jerk dt_j dt_a dt_v ∧
      0 ≤ dt_j ∧ 0 ≤ dt_a ∧ 0 ≤ dt_v ∧
      |(p.switch_points 7).p - dist| ≤ eps := by
  simp only [scurveTrial] at h
  split at h
  · rename_i hc
    cases h
    exact ⟨_, _, _, _, _, rfl, hc.1, hc.2.1, hc.2.2.1, hc.2.2.2⟩
  · exact Option.noConfusion h

lemma scurveSearchFrom_eq_some {dist : ℚ} {limits : DynamicLimits}
    {solver : SolverParameters} {p : SCurveParameters} :
    ∀ fuel k, scurveSearchFrom dist limits solver k fuel = some p →
      ∃ i, scurveTrial dist limits solver i = some p := by
  intro fuel
  induction fuel with
  | zero => intro k h; exact Option.noConfusion h
  | succ m ih =>
      intro k h
      rw [scurveSearchFrom] at h
      cases htr : scurveTrial dist limits solver k with
      | none =>
          rw [htr] at h
          exact ih (k + 1) h
      | some q =>
          rw [htr] at h
          cases h
          exact ⟨k, htr⟩

lemma generateSCurve_eq_some {dist : ℚ} {limits : DynamicLimits}
    {solver : SolverParameters} {p : SCurveParameters}
    (h : generateSCurve dist limits solver = some p) :
    ∃ v a dt_j dt_a dt_v,
      p = populateSwitchTimeParameters v a limits.max_jerk dt_j dt_a dt_v ∧
      0 ≤ dt_j ∧ 0 ≤ dt_a ∧ 0 ≤ dt_v ∧
      |(p.switch_points 7).p - dist| ≤ eps := by
  obtain ⟨i, hi⟩ := scurveSearchFrom_eq_some _ _ h
  exact scurveTrial_eq_some hi

lemma generated_facts {dist : ℚ} {limits : DynamicLimits}
    {solver : SolverParameters} {p : SCurveParameters}
    (h : generateSCurve dist limits solver = some p) :
    p.switch_points 0 = ⟨0, 0, 0, 0⟩ ∧
    (∀ i : ℕ, (p.switch_points i).t ≤ (p.switch_points (i + 1)).t) ∧
    0 ≤ totalTime p ∧
    |(p.switch_points 7).p - dist| ≤ eps ∧
    (totalTime p ≤ 0 → (p.switch_points 7).p = 0) := by
  obtain ⟨v, a, dtj, dta, dtv, rfl, h1, h2, h3, hacc⟩ := generateSCurve_eq_some h
  refine ⟨rfl, ?_, ?_, hacc, ?_⟩
  · intro i
    show (switchPointSeq _ _ _ _ i).t ≤ (switchPointSeq _ _ _ _ (i + 1)).t
    rw [switchPointSeq_succ_t]
    have := segDur_nonneg h1 h2 h3 i
    linarith
  · exact switchPointSeq_t_nonneg h1 h2 h3 _ 7
  · intro hT
    rw [populate_t7] at hT
    have hx : dtj = 0 := by linarith
    have hy : dta = 0 := by linarith
    have hz : dtv = 0 := by linarith
    subst hx; subst hy; subst hz
    show (switchPointSeq _ 0 0 0 7).p = 0
    rw [switchPointSeq_zero_dt]

lemma synchronizeParameters_total {d1 d2 : ℚ} {l1 l2 : DynamicLimits}
    {solver : SolverParameters} {p1 p2 q1 q2 : SCurveParameters}
    (h : synchronizeParameters d1 d2 l1 l2 solver p1 p2 = some (q1, q2)) :
    |totalTime q1 - totalTime q2| ≤ eps := by
  simp only [synchronizeParameters] at h
  split at h
  · rename_i hc
    simp only [Option.some.injEq, Prod.mk.injEq] at h
    obtain ⟨rfl, rfl⟩ := h
    exact hc
  · split at h
    · split at h
      · exact Option.noConfusion h
      · split at h
        · rename_i hok
          simp only [Option.some.injEq, Prod.mk.injEq] at h
          obtain ⟨rfl, rfl⟩ := h
          exact hok
        · exact Option.noConfusion h
    · split at h
      · exact Option.noConfusion h
      · split at h
        · rename_i hok
          simp only [Option.some.injEq, Prod.mk.injEq] at h
          obtain ⟨rfl, rfl⟩ := h
          exact hok
        · exact Option.noConfusion h

lemma synchronizeParameters_sources {d1 d2 : ℚ} {l1 l2 : DynamicLimits}
    {solver : SolverParameters} {p1 p2 q1 q2 : SCurveParameters}
    (h : synchronizeParameters d1 d2 l1 l2 solver p1 p2 = some (q1, q2)) :
    (q1 = p1 ∨ ∃ l, generateSCurve d1 l solver = some q1) ∧
    (q2 = p2 ∨ ∃ l, generateSCurve d2 l solver = some q2) := by
  simp only [synchronizeParameters] at h
  split at h
  · simp only [Option.some.injEq, Prod.mk.injEq] at h
    obtain ⟨rfl, rfl⟩ := h
    exact ⟨Or.inl rfl, Or.inl rfl⟩
  · split at h
    · split at h
      · exact Option.noConfusion h
      · rename_i r1 hg
        split at h
        · simp only [Option.some.injEq, Prod.mk.injEq] at h
          obtain ⟨rfl, rfl⟩ := h
          exact ⟨Or.inr ⟨_, hg⟩, Or.inl rfl⟩
        · exact Option.noConfusion h
    · split at h
      · exact Option.noConfusion h
      · rename_i r2 hg
        split at h
        · simp only [Option.some.injEq, Prod.mk.injEq] at h
          obtain ⟨rfl, rfl⟩ := h
          exact ⟨Or.inl rfl, Or.inr ⟨_, hg⟩⟩
        · exact Option.noConfusion h

lemma generateP2P_success {stg : SmoothTrajectoryGenerator} {p0 : Point}
    {dist delta : ℚ} {dir : ℚ × ℚ} {lt lr : DynamicLimits}
    (h : (stg.generatePointToPointTrajectory p0 dist delta dir lt lr).1 = true) :
    ∃ q1 q2,
      (stg.generatePointToPointTrajectory p0 dist delta dir lt lr).2.currentTrajectory =
        ⟨dir, rotSign delta, p0, q1, q2, true⟩ ∧
      (∃ l, generateSCurve dist l stg.solver_params = some q1) ∧
      (∃ l, generateSCurve |delta| l stg.solver_params = some q2) ∧
      |totalTime q1 - totalTime q2| ≤ eps := by
  unfold SmoothTrajectoryGenerator.generatePointToPointTrajectory at h ⊢
  split at h
  · exact Bool.noConfusion h
  · rename_i p1 heq1
    split at h
    · exact Bool.noConfusion h
    · rename_i p2 heq2
      split at h
      · exact Bool.noConfusion h
      · rename_i q1 q2 heq3
        simp only [heq1, heq2, heq3]
        obtain ⟨hs1, hs2⟩ := synchronizeParameters_sources heq3
        refine ⟨q1, q2, rfl, ?_, ?_, synchronizeParameters_total heq3⟩
        · rcases hs1 with rfl | hg
          · exact ⟨lt, heq1⟩
          · exact hg
        · rcases hs2 with rfl | hg
          · exact ⟨lr, heq2⟩
          · exact hg

lemma lookup_1D_nonpos {p : SCurveParameters}
    (h0 : p.switch_points 0 = ⟨0, 0, 0, 0⟩) {t : ℚ} (ht : t ≤ 0) :
    lookup_1D t p = (0, 0, 0) := by
  unfold lookup_1D
  rw [if_pos ht, h0]

lemma lookup_1D_terminal {dist : ℚ} {limits : DynamicLimits}
    {solver : SolverParameters} {p : SCurveParameters}
    (h : generateSCurve dist limits solver = some p) {t : ℚ}
    (ht : totalTime p ≤ t) :
    lookup_1D t p = ((p.switch_points 7).p, 0, 0) := by
  obtain ⟨h0, hmono, hT0, hacc, hzero⟩ := generated_facts h
  by_cases ht0 : t ≤ 0
  · have hTle : totalTime p ≤ 0 := le_trans ht ht0
    rw [lookup_1D_nonpos h0 ht0, hzero hTle]
  · unfold lookup_1D
    rw [if_neg ht0]
    have ht' : (p.switch_points 7).t ≤ t := ht
    rw [if_pos ht']

lemma integrateStep_zero (sp : SwitchPoint) : integrateStep sp 0 0 = sp := by
  cases sp
  simp [integrateStep]

lemma segJerk_ge_seven {j : ℚ} {n : ℕ} (hn : 7 ≤ n) : segJerk j n = 0 := by
  unfold segJerk
  rw [if_neg (by omega), if_neg (by omega)]

lemma segDur_ge_seven {a b c : ℚ} {n : ℕ} (hn : 7 ≤ n) :
    segDur a b c n = 0 := by
  unfold segDur
  rw [if_neg (by omega), if_neg (by omega), if_neg (by omega)]

lemma switchPointSeq_stable (j a b c : ℚ) :
    ∀ m, switchPointSeq j a b c (7 + m) = switchPointSeq j a b c 7 := by
  intro m
  induction m with
  | zero => rfl
  | succ k ih =>
      rw [show 7 + (k + 1) = (7 + k) + 1 from by omega]
      show integrateStep _ _ _ = _
      rw [segJerk_ge_seven (by omega), segDur_ge_seven (by omega),
        integrateStep_zero, ih]

lemma switchPointSeq_v_le {jq d e V : ℚ} (f : ℚ) (hj : 0 < jq) (hd : 0 ≤ d)
    (he : 0 ≤ e) (hV : 0 ≤ V) (hpeak : jq * d * (d + e) ≤ V) :
    ∀ i : ℕ, (switchPointSeq jq d e f i).v ≤ V := by
  have hdd : 0 ≤ jq * (d * d) := by positivity
  have hde : 0 ≤ jq * (d * e) := by positivity
  intro i
  by_cases hi : i ≤ 7
  · interval_cases i <;>
      · simp [switchPointSeq, integrateStep, segJerk, segDur]
        ring_nf
        nlinarith [hpeak, hdd, hde, hV]
  · rw [show i = 7 + (i - 7) from by omega, switchPointSeq_stable]
    simp [switchPointSeq, integrateStep, segJerk, segDur]
    ring_nf
    nlinarith [hpeak, hdd, hde, hV]

lemma solveInverse_peak {V A Jq : ℚ} (hV : 0 < V) (ha : 0 < A) (hj : 0 < Jq) :
    Jq * min (A / Jq) (V / A) * (min (A / Jq) (V / A) + max 0 (V / A - A / Jq)) ≤ V := by
  by_cases hc : A / Jq ≤ V / A
  · rw [min_eq_left hc, max_eq_right (sub_nonneg.2 hc)]
    have heq : Jq * (A / Jq) * (A / Jq + (V / A - A / Jq)) = V := by
      field_simp
      ring
    rw [heq]
  · push_neg at hc
    rw [min_eq_right hc.le, max_eq_left (by linarith : V / A - A / Jq ≤ 0)]
    have hlt : V * Jq < A * A := by
      rw [div_lt_div_iff₀ ha hj] at hc
      linarith
    have heq : Jq * (V / A) * (V / A + 0) = Jq * V ^ 2 / A ^ 2 := by
      field_simp
      ring
    rw [heq, div_le_iff₀ (by positivity : (0 : ℚ) < A ^ 2)]
    nlinarith [hV, hlt]

lemma solveInverse_totalTime_ge (v T : ℚ) (L : DynamicLimits) :
    T ≤ totalTime (solveInverse v T L) := by
  simp only [solveInverse]
  rw [populate_t7]
  generalize min (L.max_acc / L.max_jerk) (min v L.max_vel / L.max_acc) = x
  generalize max 0 (min v L.max_vel / L.max_acc - L.max_acc / L.max_jerk) = y
  have h := le_max_right (0 : ℚ) (T - 4 * x - 2 * y)
  linarith

lemma rotSign_mul_abs (x : ℚ) : (rotSign x : ℚ) * |x| = x := by
  unfold rotSign
  split_ifs with h1 h2
  · rw [abs_of_pos h1]; push_cast; ring
  · rw [abs_of_neg h2]; push_cast; ring
  · have hx : x = 0 := le_antisymm (not_lt.1 h1) (not_lt.1 h2)
    rw [hx]; simp

lemma abs_rotSign_le_one (x : ℚ) : |(rotSign x : ℚ)| ≤ 1 := by
  unfold rotSign
  split_ifs <;> norm_num

lemma demo_trial :
    scurveTrial 3 demoLimits ⟨10, 1 / 10, 1 / 10, 2⟩ 0 = some demoParams := by
  norm_num [scurveTrial, demoLimits, demoParams, populateSwitchTimeParameters,
    switchPointSeq, integrateStep, segDur, segJerk, eps]

lemma demo_scurve : generateSCurve 3 demoLimits demoSolver = some demoParams := by
  norm_num [generateSCurve, scurveSearchFrom, demoSolver, demo_trial]

lemma demo_t7 : totalTime demoParams = 5 := by
  norm_num [totalTime, demoParams, populateSwitchTimeParameters, switchPointSeq,
    integrateStep, segDur, segJerk]

lemma demo_sync :
    synchronizeParameters 3 3 demoLimits demoLimits demoSolver demoParams demoParams =
      some (demoParams, demoParams) := by
  norm_num [synchronizeParameters, sub_self, abs_zero, eps]

lemma demo_p2p :
    demoStg.generatePointToPointTrajectory {} 3 3 (1, 0) demoLimits demoLimits =
      (true, ⟨⟨(1, 0), rotSign 3, {}, demoParams, demoParams, true⟩, demoSolver⟩) := by
  have habs : |(3 : ℚ)| = 3 := by norm_num
  simp only [SmoothTrajectoryGenerator.generatePointToPointTrajectory,
    show demoStg.solver_params = demoSolver from rfl, habs, demo_scurve, demo_sync]

lemma demo_bad_trial :
    scurveTrial 1 demoBadLimits ⟨1, 1 / 10, 1 / 10, 2⟩ 0 = none := by
  norm_num [scurveTrial, demoBadLimits, populateSwitchTimeParameters,
    switchPointSeq, integrateStep, segDur, segJerk, eps]

lemma demo_bad_scurve : generateSCurve 1 demoBadLimits demoFastSolver = none := by
  norm_num [generateSCurve, scurveSearchFrom, demoFastSolver, demo_bad_trial]

lemma demo_bad_p2p :
    badStg.generatePointToPointTrajectory {} 1 0 (1, 0) demoBadLimits demoBadLimits =
      (false, badStg) := by
  simp only [SmoothTrajectoryGenerator.generatePointToPointTrajectory,
    show badStg.solver_params = demoFastSolver from rfl, demo_bad_scurve]

end Lemmas

section Claims

/-- C1: whenever point-to-point generation succeeds, the stored translational
and rotational S-curve parameters have equal final switch-point times within
the tolerance ε = 1e-6. -/
theorem c1_synchronized_durations (stg : SmoothTrajectoryGenerator) (p0 : Point)
    (dist delta : ℚ) (dir : ℚ × ℚ) (lt lr : DynamicLimits)
    (h : (stg.generatePointToPointTrajectory p0 dist delta dir lt lr).1 = true) :
    |totalTime (stg.generatePointToPointTrajectory p0 dist delta dir lt lr).2.currentTrajectory.trans_params -
      totalTime (stg.generatePointToPointTrajectory p0 dist delta dir lt lr).2.currentTrajectory.rot_params| ≤ eps := by
  obtain ⟨q1, q2, hct, _, _, hsync⟩ := generateP2P_success h
  rw [hct]
  exact hsync

/-- Witness for C1: a concrete successful generation with synchronized
durations. -/
theorem c1_synchronized_durations_witness :
    |totalTime (demoStg.generatePointToPointTrajectory {} 3 3 (1, 0) demoLimits demoLimits).2.currentTrajectory.trans_params -
      totalTime (demoStg.generatePointToPointTrajectory {} 3 3 (1, 0) demoLimits demoLimits).2.currentTrajectory.rot_params| ≤ eps :=
  c1_synchronized_durations demoStg {} 3 3 (1, 0) demoLimits demoLimits
    (by rw [demo_p2p])

/-- C2: every parameter set produced by a successful `generateSCurve` run has
monotonically non-decreasing switch-point times, and its first switch point is
the origin `(0,0,0,0)`. -/
theorem c2_scurve_invariants (dist : ℚ) (limits : DynamicLimits)
    (solver : SolverParameters) (p : SCurveParameters)
    (h : generateSCurve dist limits solver = some p) :
    (∀ i : ℕ, i < 7 → (p.switch_points i).t ≤ (p.switch_points (i + 1)).t) ∧
    p.switch_points 0 = ⟨0, 0, 0, 0⟩ := by
  obtain ⟨h0, hmono, _, _, _⟩ := generated_facts h
  exact ⟨fun i _ => hmono i, h0⟩

/-- Witness for C2: the solver output for distance 3 under unit limits. -/
theorem c2_scurve_invariants_witness :
    generateSCurve 3 demoLimits demoSolver = some demoParams ∧
    ((∀ i : ℕ, i < 7 →
        (demoParams.switch_points i).t ≤ (demoParams.switch_points (i + 1)).t) ∧
      demoParams.switch_points 0 = ⟨0, 0, 0, 0⟩) :=
  ⟨demo_scurve, c2_scurve_invariants 3 demoLimits demoSolver demoParams demo_scurve⟩

/-- C3: for a trajectory stored by a successful point-to-point generation,
lookup clamps out-of-range query times: every `t ≤ 0` yields the initial
point with zero velocity, and every `t` at or past the final switch-point
times yields the target position within ε with zero velocity. -/
theorem c3_lookup_clamps (stg : SmoothTrajectoryGenerator) (p0 : Point)
    (dist delta : ℚ) (dir : ℚ × ℚ) (lt lr : DynamicLimits)
    (h : (stg.generatePointToPointTrajectory p0 dist delta dir lt lr).1 = true)
    (hd1 : |dir.1| ≤ 1) (hd2 : |dir.2| ≤ 1) :
    (∀ t : ℚ, t ≤ 0 →
      ((stg.generatePointToPointTrajectory p0 dist delta dir lt lr).2.lookup t).position = p0 ∧
      ((stg.generatePointToPointTrajectory p0 dist delta dir lt lr).2.lookup t).velocity = ⟨0, 0, 0⟩) ∧
    (∀ t : ℚ,
      totalTime (stg.generatePointToPointTrajectory p0 dist delta dir lt lr).2.currentTrajectory.trans_params ≤ t →
      totalTime (stg.generatePointToPointTrajectory p0 dist delta dir lt lr).2.currentTrajectory.rot_params ≤ t →
      |((stg.generatePointToPointTrajectory p0 dist delta dir lt lr).2.lookup t).position.x - (p0.x + dir.1 * dist)| ≤ eps ∧
      |((stg.generatePointToPointTrajectory p0 dist delta dir lt lr).2.lookup t).position.y - (p0.y + dir.2 * dist)| ≤ eps ∧
      |((stg.generatePointToPointTrajectory p0 dist delta dir lt lr).2.lookup t).position.a - (p0.a + delta)| ≤ eps ∧
      ((stg.generatePointToPointTrajectory p0 dist delta dir lt lr).2.lookup t).velocity = ⟨0, 0, 0⟩) := by
  obtain ⟨q1, q2, hct, hs1, hs2, hsync⟩ := generateP2P_success h
  obtain ⟨l1, hg1⟩ := hs1
  obtain ⟨l2, hg2⟩ := hs2
  obtain ⟨h01, _, _, hacc1, _⟩ := generated_facts hg1
  obtain ⟨h02, _, _, hacc2, _⟩ := generated_facts hg2
  constructor
  · intro t ht
    have e1 : lookup_1D t q1 = (0, 0, 0) := lookup_1D_nonpos h01 ht
    have e2 : lookup_1D t q2 = (0, 0, 0) := lookup_1D_nonpos h02 ht
    constructor
    · simp [SmoothTrajectoryGenerator.lookup, hct, e1, e2]
    · simp [SmoothTrajectoryGenerator.lookup, hct, e1, e2]
  · intro t ht1 ht2
    rw [hct] at ht1 ht2
    have e1 : lookup_1D t q1 = ((q1.switch_points 7).p, 0, 0) :=
      lookup_1D_terminal hg1 ht1
    have e2 : lookup_1D t q2 = ((q2.switch_points 7).p, 0, 0) :=
      lookup_1D_terminal hg2 ht2
    refine ⟨?_, ?_, ?_, ?_⟩
    · have hxval :
          ((stg.generatePointToPointTrajectory p0 dist delta dir lt lr).2.lookup t).position.x
            = p0.x + dir.1 * (q1.switch_points 7).p := by
        simp [SmoothTrajectoryGenerator.lookup, hct, e1, e2]
      rw [hxval,
        show p0.x + dir.1 * (q1.switch_points 7).p - (p0.x + dir.1 * dist)
            = dir.1 * ((q1.switch_points 7).p - dist) from by ring,
        abs_mul]
      calc |dir.1| * |(q1.switch_points 7).p - dist|
          ≤ 1 * |(q1.switch_points 7).p - dist| :=
            mul_le_mul_of_nonneg_right hd1 (abs_nonneg _)
        _ = |(q1.switch_points 7).p - dist| := one_mul _
        _ ≤ eps := hacc1
    · have hyval :
          ((stg.generatePointToPointTrajectory p0 dist delta dir lt lr).2.lookup t).position.y
            = p0.y + dir.2 * (q1.switch_points 7).p := by
        simp [SmoothTrajectoryGenerator.lookup, hct, e1, e2]
      rw [hyval,
        show p0.y + dir.2 * (q1.switch_points 7).p - (p0.y + dir.2 * dist)
            = dir.2 * ((q1.switch_points 7).p - dist) from by ring,
        abs_mul]
      calc |dir.2| * |(q1.switch_points 7).p - dist|
          ≤ 1 * |(q1.switch_points 7).p - dist| :=
            mul_le_mul_of_nonneg_right hd2 (abs_nonneg _)
        _ = |(q1.switch_points 7).p - dist| := one_mul _
        _ ≤ eps := hacc1
    · have haval :
          ((stg.generatePointToPointTrajectory p0 dist delta dir lt lr).2.lookup t).position.a
            = p0.a + (rotSign delta : ℚ) * (q2.switch_points 7).p := by
        simp [SmoothTrajectoryGenerator.lookup, hct, e1, e2]
      rw [haval,
        show p0.a + (rotSign delta : ℚ) * (q2.switch_points 7).p - (p0.a + delta)
            = (rotSign delta : ℚ) * ((q2.switch_points 7).p - |delta|) from by
          rw [mul_sub, rotSign_mul_abs delta]; ring,
        abs_mul]
      calc |(rotSign delta : ℚ)| * abs ((q2.switch_points 7).p - |delta|)
          ≤ 1 * abs ((q2.switch_points 7).p - |delta|) :=
            mul_le_mul_of_nonneg_right (abs_rotSign_le_one delta) (abs_nonneg _)
        _ = abs ((q2.switch_points 7).p - |delta|) := one_mul _
        _ ≤ eps := hacc2
    · simp [SmoothTrajectoryGenerator.lookup, hct, e1, e2]

/-- Witness for C3: lookups before the start and past the shared duration of
a concrete generated trajectory. -/
theorem c3_lookup_clamps_witness :
    (((demoStg.generatePointToPointTrajectory {} 3 3 (1, 0) demoLimits demoLimits).2.lookup (-1)).position = ({} : Point) ∧
      ((demoStg.generatePointToPointTrajectory {} 3 3 (1, 0) demoLimits demoLimits).2.lookup (-1)).velocity = ⟨0, 0, 0⟩) ∧
    (|((demoStg.generatePointToPointTrajectory {} 3 3 (1, 0) demoLimits demoLimits).2.lookup 10).position.x -
        (({} : Point).x + ((1 : ℚ), (0 : ℚ)).1 * 3)| ≤ eps ∧
      |((demoStg.generatePointToPointTrajectory {} 3 3 (1, 0) demoLimits demoLimits).2.lookup 10).position.y -
        (({} : Point).y + ((1 : ℚ), (0 : ℚ)).2 * 3)| ≤ eps ∧
      |((demoStg.generatePointToPointTrajectory {} 3 3 (1, 0) demoLimits demoLimits).2.lookup 10).position.a -
        (({} : Point).a + 3)| ≤ eps ∧
      ((demoStg.generatePointToPointTrajectory {} 3 3 (1, 0) demoLimits demoLimits).2.lookup 10).velocity = ⟨0, 0, 0⟩) :=
  ⟨(c3_lookup_clamps demoStg {} 3 3 (1, 0) demoLimits demoLimits (by rw [demo_p2p])
      (by norm_num) (by norm_num)).1 (-1) (by norm_num),
    (c3_lookup_clamps demoStg {} 3 3 (1, 0) demoLimits demoLimits (by rw [demo_p2p])
      (by norm_num) (by norm_num)).2 10
      (by rw [demo_p2p]; norm_num [demo_t7])
      (by rw [demo_p2p]; norm_num [demo_t7])⟩

/-- C4: when point-to-point generation fails the stored trajectory is left
exactly as it was; the const-velocity generator of the spec model is
best-effort and never reports failure, so its failure case is empty. -/
theorem c4_failed_generation_atomic (stg : SmoothTrajectoryGenerator)
    (p0 p1 : Point) (dist delta vmag va moveTime : ℚ) (dir dir2 : ℚ × ℚ)
    (lt lr lt2 lr2 : DynamicLimits) :
    ((stg.generatePointToPointTrajectory p0 dist delta dir lt lr).1 = false →
      (stg.generatePointToPointTrajectory p0 dist delta dir lt lr).2.currentTrajectory =
        stg.currentTrajectory) ∧
    (stg.generateConstVelTrajectory p1 vmag va moveTime dir2 lt2 lr2).1 = true := by
  constructor
  · intro hf
    unfold SmoothTrajectoryGenerator.generatePointToPointTrajectory at hf ⊢
    split at hf
    · rename_i heq1
      simp [heq1]
    · rename_i p1' heq1
      split at hf
      · rename_i heq2
        simp [heq1, heq2]
      · rename_i p2' heq2
        split at hf
        · rename_i heq3
          simp [heq1, heq2, heq3]
        · exact Bool.noConfusion hf
  · rfl

/-- Witness for C4: the infeasible-jerk request of spec scenario 5 fails and
leaves the stored trajectory untouched. -/
theorem c4_failed_generation_atomic_witness :
    (badStg.generatePointToPointTrajectory {} 1 0 (1, 0) demoBadLimits demoBadLimits).1 = false ∧
    (badStg.generatePointToPointTrajectory {} 1 0 (1, 0) demoBadLimits demoBadLimits).2.currentTrajectory =
      badStg.currentTrajectory :=
  ⟨by rw [demo_bad_p2p],
    (c4_failed_generation_atomic badStg {} {} 1 0 0 0 0 (1, 0) (1, 0)
      demoBadLimits demoBadLimits demoLimits demoLimits).1 (by rw [demo_bad_p2p])⟩

/-- C5: a constant-velocity request that exceeds the active dynamic limits is
clamped silently, for any strictly positive limit triple: the call always
returns true (never reporting the clamp); the stored velocity limit is
`min(v_target, v_max)`; when the requested velocity exceeds `v_max`, every
switch-point velocity of the stored profile stays at or below `v_max`,
strictly below the request; and a move time the limits cannot honour is
silently extended — the stored profile never ends before the requested move
time. -/
theorem c5_const_vel_clamped_success (stg : SmoothTrajectoryGenerator)
    (p0 : Point) (vmag va moveTime : ℚ) (dir : ℚ × ℚ) (lt lr : DynamicLimits)
    (hV : 0 < lt.max_vel) (ha : 0 < lt.max_acc) (hj : 0 < lt.max_jerk) :
    (stg.generateConstVelTrajectory p0 vmag va moveTime dir lt lr).1 = true ∧
    (stg.generateConstVelTrajectory p0 vmag va moveTime dir lt lr).2.currentTrajectory.trans_params.v_lim = min vmag lt.max_vel ∧
    (lt.max_vel < vmag →
      (stg.generateConstVelTrajectory p0 vmag va moveTime dir lt lr).2.currentTrajectory.trans_params.v_lim = lt.max_vel ∧
      lt.max_vel < vmag ∧
      ∀ i : ℕ,
        ((stg.generateConstVelTrajectory p0 vmag va moveTime dir lt lr).2.currentTrajectory.trans_params.switch_points i).v ≤ lt.max_vel) ∧
    moveTime ≤ totalTime (stg.generateConstVelTrajectory p0 vmag va moveTime dir lt lr).2.currentTrajectory.trans_params := by
  refine ⟨rfl, rfl, ?_, solveInverse_totalTime_ge vmag moveTime lt⟩
  intro hvm
  have hmin : min vmag lt.max_vel = lt.max_vel := min_eq_right hvm.le
  refine ⟨hmin, hvm, ?_⟩
  intro i
  show ((solveInverse vmag moveTime lt).switch_points i).v ≤ lt.max_vel
  have hsp : (solveInverse vmag moveTime lt).switch_points =
      switchPointSeq lt.max_jerk
        (min (lt.max_acc / lt.max_jerk) (lt.max_vel / lt.max_acc))
        (max 0 (lt.max_vel / lt.max_acc - lt.max_acc / lt.max_jerk))
        (max 0 (moveTime -
          4 * min (lt.max_acc / lt.max_jerk) (lt.max_vel / lt.max_acc) -
          2 * max 0 (lt.max_vel / lt.max_acc - lt.max_acc / lt.max_jerk))) := by
    simp only [solveInverse, populateSwitchTimeParameters, hmin]
  rw [hsp]
  exact switchPointSeq_v_le _ hj
    (le_min (by positivity) (by positivity))
    (le_max_left 0 _) hV.le (solveInverse_peak hV ha hj) i

/-- Witness for C5: the steep limits `(1, 10, 1)` with requested velocity 2 —
the short-ramp regime, where the old fixed jerk phase would overshoot — clamp
to velocity limit 1 and still succeed. -/
theorem c5_const_vel_clamped_success_witness :
    (0 : ℚ) < demoSteepLimits.max_vel ∧ demoSteepLimits.max_vel < 2 ∧
    ((demoStg.generateConstVelTrajectory {} 2 0 10 (1, 0) demoSteepLimits demoLimits).1 = true ∧
      (demoStg.generateConstVelTrajectory {} 2 0 10 (1, 0) demoSteepLimits demoLimits).2.currentTrajectory.trans_params.v_lim = min 2 demoSteepLimits.max_vel ∧
      (demoSteepLimits.max_vel < 2 →
        (demoStg.generateConstVelTrajectory {} 2 0 10 (1, 0) demoSteepLimits demoLimits).2.currentTrajectory.trans_params.v_lim = demoSteepLimits.max_vel ∧
        demoSteepLimits.max_vel < 2 ∧
        ∀ i : ℕ,
          ((demoStg.generateConstVelTrajectory {} 2 0 10 (1, 0) demoSteepLimits demoLimits).2.currentTrajectory.trans_params.switch_points i).v ≤ demoSteepLimits.max_vel) ∧
      (10 : ℚ) ≤ totalTime (demoStg.generateConstVelTrajectory {} 2 0 10 (1, 0) demoSteepLimits demoLimits).2.currentTrajectory.trans_params) :=
  ⟨by norm_num [demoSteepLimits], by norm_num [demoSteepLimits],
    c5_const_vel_clamped_success demoStg {} 2 0 10 (1, 0) demoSteepLimits demoLimits
      (by norm_num [demoSteepLimits]) (by norm_num [demoSteepLimits])
      (by norm_num [demoSteepLimits])⟩

/-- C6: `Velocity::nearZero(ε)` returns true iff the magnitudes of all three
components are strictly below ε, for every positive tolerance. -/
theorem c6_nearZero_iff (v : Velocity) (e : ℚ) (h : 0 < e) :
    v.nearZero e = true ↔ (|v.vx| < e ∧ |v.vy| < e ∧ |v.va| < e) := by
  unfold Velocity.nearZero
  split_ifs with hc
  · simpa using hc
  · simpa using hc

/-- Witness for C6 at a concrete velocity and tolerance. -/
theorem c6_nearZero_iff_witness :
    (0 : ℚ) < 1 ∧
      ((Velocity.mk 0 0 0).nearZero 1 = true ↔
        (|(Velocity.mk 0 0 0).vx| < 1 ∧ |(Velocity.mk 0 0 0).vy| < 1 ∧
          |(Velocity.mk 0 0 0).va| < 1)) :=
  ⟨by norm_num, c6_nearZero_iff (Velocity.mk 0 0 0) 1 (by norm_num)⟩

/-- C7: `DynamicLimits::operator*` scales all three limits — velocity,
acceleration and jerk — uniformly by the scalar. -/
theorem c7_limits_scale (l : DynamicLimits) (c : ℚ) :
    l.scale c = ⟨c * l.max_vel, c * l.max_acc, c * l.max_jerk⟩ := rfl

/-- C8: `Point::operator==` holds iff all three components are exactly equal;
no tolerance is applied. -/
theorem c8_point_eq_iff (p other : Point) :
    Point.eqOp p other = true ↔
      (p.x = other.x ∧ p.y = other.y ∧ p.a = other.a) := by
  simp [Point.eqOp, and_assoc]

/-- C9: default-constructed `Point` and `Velocity` values are all-zero. -/
theorem c9_default_zero :
    ({} : Point) = Point.mk 0 0 0 ∧ ({} : Velocity) = Velocity.mk 0 0 0 :=
  ⟨rfl, rfl⟩

/-- C10: `Velocity::nearZero` is monotone in its tolerance. -/
theorem c10_nearZero_mono (v : Velocity) (e1 e2 : ℚ) (h12 : e1 ≤ e2)
    (h : v.nearZero e1 = true) : v.nearZero e2 = true := by
  unfold Velocity.nearZero at h ⊢
  split_ifs at h with hc
  · have hc2 : |v.vx| < e2 ∧ |v.vy| < e2 ∧ |v.va| < e2 :=
      ⟨lt_of_lt_of_le hc.1 h12, lt_of_lt_of_le hc.2.1 h12,
        lt_of_lt_of_le hc.2.2 h12⟩
    rw [if_pos hc2]

/-- Witness for C10 at concrete tolerances 1 ≤ 2. -/
theorem c10_nearZero_mono_witness :
    (1 : ℚ) ≤ 2 ∧ (Velocity.mk 0 0 0).nearZero 1 = true ∧
      (Velocity.mk 0 0 0).nearZero 2 = true :=
  ⟨by norm_num, by norm_num [Velocity.nearZero],
    c10_nearZero_mono (Velocity.mk 0 0 0) 1 2 (by norm_num)
      (by norm_num [Velocity.nearZero])⟩

end Claims

end DominoRobot
